import Mathlib

set_option linter.unnecessarySeqFocus false

/-!
# Verification of the ImranAutoHub bidding engine

Shallow embedding of the Express/Mongoose route handlers of the vehicle
marketplace server (`POST /api/bids`, `GET /api/vehicles/:id/bids`,
`POST /api/bookings`, `POST /api/forgot-password`).  The deployed
(serverless) and local-server variants of the bid and booking handlers are
line-for-line identical in their data logic (the local variant only adds
socket emissions), so a single embedding covers both; the forgot-password
handlers differ in their response bodies and are embedded separately.

JavaScript numbers are modelled by `JSNum` (either NaN or a rational), with
the JS comparison semantics in which any comparison against NaN is false.
Mongoose documents are records; each collection is a list; `_id` generation
is a counter.  Dates (`Date.now`) are passed in as a `now : Nat` argument.
-/

namespace AutoHub

/-- A JavaScript number: NaN or an actual (rational) value.  `parseFloat`
of a non-numeric string yields `nan`. -/
inductive JSNum where
  | nan : JSNum
  | num (q : ℚ) : JSNum
deriving DecidableEq, Repr

/-- JavaScript `x <= y`: false whenever either side is NaN. -/
def JSNum.jle : JSNum → JSNum → Bool
  | JSNum.num a, JSNum.num b => decide (a ≤ b)
  | _, _ => false

/-- JavaScript `x < y`: false whenever either side is NaN. -/
def JSNum.jlt : JSNum → JSNum → Bool
  | JSNum.num a, JSNum.num b => decide (a < b)
  | _, _ => false

/-- The total order MongoDB uses to sort `double` values: NaN sorts below
every number. -/
def JSNum.bsonLe : JSNum → JSNum → Bool
  | JSNum.nan, _ => true
  | JSNum.num _, JSNum.nan => false
  | JSNum.num a, JSNum.num b => decide (a ≤ b)

/-- A JSON request-body value, modelled by the only two observations the
handlers make of it: its JavaScript truthiness (the `!amount` guard) and
its `parseFloat` image. -/
structure RawVal where
  truthy : Bool
  parsed : JSNum
deriving DecidableEq, Repr

/-- The raw value of a JSON number `q`: falsy exactly when `q = 0`, and
`parseFloat` is the identity on numbers. -/
def RawVal.ofNum (q : ℚ) : RawVal :=
  { truthy := decide (q ≠ 0), parsed := JSNum.num q }

/-- Model of `vehicleSchema`.  Descriptive fields (brand, model, year, type,
condition, mileage, description, images, contact data, createdAt) are
never read by the bid/booking handlers and are omitted.  `status` is a
free string with schema default `"available"`, as in the source. -/
structure Vehicle where
  id : Nat
  sellerId : Nat
  price : JSNum
  status : String
deriving DecidableEq, Repr

/-- Model of `bidSchema`: vehicleId, userId, amount, status (default `"pending"`),
createdAt. -/
structure Bid where
  id : Nat
  vehicleId : Nat
  userId : Nat
  amount : JSNum
  status : String
  createdAt : Nat
deriving DecidableEq, Repr

/-- Model of `bookingSchema`: vehicleId, buyerId, sellerId, bidId, finalPrice,
status (default `"confirmed"`), createdAt. -/
structure Booking where
  id : Nat
  vehicleId : Nat
  buyerId : Nat
  sellerId : Nat
  bidId : Nat
  finalPrice : JSNum
  status : String
  createdAt : Nat
deriving DecidableEq, Repr

/-- Model of `userSchema` (fields used by the forgot-password handlers). -/
structure User where
  id : Nat
  name : String
  email : String
deriving DecidableEq, Repr

/-- Model of `resetTokenSchema`: userId and the stored (hashed) token. -/
structure ResetTokenRec where
  userId : Nat
  token : String
  createdAt : Nat
deriving DecidableEq, Repr

/-- The database: one list per collection, plus counters standing in for
MongoDB `_id` generation. -/
structure DB where
  users : List User
  vehicles : List Vehicle
  bids : List Bid
  bookings : List Booking
  resetTokens : List ResetTokenRec
  nextBidId : Nat
  nextBookingId : Nat
deriving DecidableEq, Repr

/-- Model of the findById lookup of a vehicle. -/
def findVehicle (db : DB) (vid : Nat) : Option Vehicle :=
  db.vehicles.find? (fun v => v.id = vid)

/-- Documents matched by the query on vehicleId with status "pending". -/
def pendingBids (db : DB) (vid : Nat) : List Bid :=
  db.bids.filter (fun b => b.vehicleId = vid ∧ b.status = "pending")

/-- Sort key of `.sort({ amount: -1 })`: descending BSON order on
amount. -/
def bidDescOrder (x y : Bid) : Prop := JSNum.bsonLe y.amount x.amount = true

instance : DecidableRel bidDescOrder := fun x y => by
  unfold bidDescOrder; infer_instance

instance : IsTotal Bid bidDescOrder := by
  constructor
  intro a b
  unfold bidDescOrder
  cases ha : a.amount <;> cases hb : b.amount <;>
    simp [JSNum.bsonLe] <;> exact le_total _ _

instance : IsTrans Bid bidDescOrder := by
  constructor
  intro a b c hab hbc
  unfold bidDescOrder at *
  cases ha : a.amount <;> cases hb : b.amount <;> cases hc : c.amount <;>
    simp_all [JSNum.bsonLe]
  exact le_trans hbc hab

/-- Model of the amount-descending sort on a list of bid documents.  MongoDB does not
specify the relative order of documents with equal `amount`; this model
determinises that choice via insertion sort. -/
def sortBidsDesc (l : List Bid) : List Bid := l.insertionSort bidDescOrder

/-- Handler GET /api/vehicles/:id/bids: the pending bids of the vehicle, sorted
by amount descending; the handler reads and returns, leaving the store
untouched. -/
def listBids (db : DB) (vid : Nat) : List Bid × DB :=
  (sortBidsDesc (pendingBids db vid), db)

/-- Model of the findOne query on pending bids of the vehicle sorted by
amount descending: the first document of the sorted result, or null. -/
def highestPendingBid (db : DB) (vid : Nat) : Option Bid :=
  (sortBidsDesc (pendingBids db vid)).head?

/-- Outcome of `POST /api/bids`: a created bid (HTTP 201) or an error
response. -/
inductive BidResult where
  | created (b : Bid) : BidResult
  | error (status : Nat) (message : String) : BidResult
deriving DecidableEq, Repr

def BidResult.isCreated : BidResult → Bool
  | BidResult.created _ => true
  | BidResult.error _ _ => false

/-- Handler POST /api/bids (both server variants).  Guards in source order:
falsy vehicleId/amount, vehicle lookup, availability, seller identity,
price floor, highest-pending-bid floor; then the insert with
status defaulting to `"pending"`. -/
def placeBid (db : DB) (userId : Nat) (vehicleId? : Option Nat)
    (amount : RawVal) (now : Nat) : BidResult × DB :=
  match vehicleId? with
  | none => (BidResult.error 400 "Vehicle ID and amount required", db)
  | some vid =>
    if amount.truthy = false then
      (BidResult.error 400 "Vehicle ID and amount required", db)
    else
      match findVehicle db vid with
      | none => (BidResult.error 404 "Vehicle not found", db)
      | some vehicle =>
        if vehicle.status ≠ "available" then
          (BidResult.error 400 "Vehicle is no longer available", db)
        else if vehicle.sellerId = userId then
          (BidResult.error 400 "You cannot bid on your own vehicle", db)
        else if amount.parsed.jle vehicle.price then
          (BidResult.error 400 "Bid must be higher than current price", db)
        else
          match highestPendingBid db vid with
          | some hb =>
            if amount.parsed.jle hb.amount then
              (BidResult.error 400 "Bid must be higher than current highest bid", db)
            else
              let bid : Bid :=
                { id := db.nextBidId, vehicleId := vid, userId := userId,
                  amount := amount.parsed, status := "pending", createdAt := now }
              (BidResult.created bid,
               { db with bids := db.bids ++ [bid], nextBidId := db.nextBidId + 1 })
          | none =>
            let bid : Bid :=
              { id := db.nextBidId, vehicleId := vid, userId := userId,
                amount := amount.parsed, status := "pending", createdAt := now }
            (BidResult.created bid,
             { db with bids := db.bids ++ [bid], nextBidId := db.nextBidId + 1 })

/-- Model of the vehicle save after setting status to sold: writes status
`"sold"` back to the document whose id is that of the loaded vehicle. -/
def markSold (vehId : Nat) (v : Vehicle) : Vehicle :=
  if v.id = vehId then { v with status := "sold" } else v

/-- Model of the winning-bid save after setting status to accepted. -/
def markAccepted (hbId : Nat) (b : Bid) : Bid :=
  if b.id = hbId then { b with status := "accepted" } else b

/-- Model of the updateMany call (matching the vehicle, id different from
the winner, status pending; setting status rejected), per document. -/
def markRejected (vid hbId : Nat) (b : Bid) : Bid :=
  if b.vehicleId = vid ∧ b.id ≠ hbId ∧ b.status = "pending"
  then { b with status := "rejected" } else b

/-- Outcome of `POST /api/bookings`. -/
inductive BookingResult where
  | created (bk : Booking) : BookingResult
  | error (status : Nat) (message : String) : BookingResult
deriving DecidableEq, Repr

def BookingResult.isError : BookingResult → Bool
  | BookingResult.created _ => false
  | BookingResult.error _ _ => true

/-- Handler POST /api/bookings (both server variants).  Guards in source order,
then the four sequential writes: `booking.save()`, `vehicle.save()` with
status `"sold"`, `highestBid.save()` with status `"accepted"`, and
the updateMany call rejecting the other pending bids of the vehicle. -/
def confirmBooking (db : DB) (userId : Nat) (vid : Nat) (now : Nat) :
    BookingResult × DB :=
  match findVehicle db vid with
  | none => (BookingResult.error 404 "Vehicle not found", db)
  | some vehicle =>
    if vehicle.status ≠ "available" then
      (BookingResult.error 400 "Vehicle already booked", db)
    else if vehicle.sellerId ≠ userId then
      (BookingResult.error 403 "Only seller can confirm booking", db)
    else
      match highestPendingBid db vid with
      | none => (BookingResult.error 400 "No bids available", db)
      | some hb =>
        let booking : Booking :=
          { id := db.nextBookingId, vehicleId := vid, buyerId := hb.userId,
            sellerId := vehicle.sellerId, bidId := hb.id,
            finalPrice := hb.amount, status := "confirmed", createdAt := now }
        let db1 := { db with bookings := db.bookings ++ [booking],
                             nextBookingId := db.nextBookingId + 1 }
        let db2 := { db1 with vehicles := db1.vehicles.map (markSold vehicle.id) }
        let db3 := { db2 with bids := db2.bids.map (markAccepted hb.id) }
        let db4 := { db3 with bids := db3.bids.map (markRejected vid hb.id) }
        (BookingResult.created booking, db4)

/-- The store as seen after only the first `k` of the four writes of
`confirmBooking` have committed (`booking.save()`, `vehicle.save()`,
`highestBid.save()`, `Bid.updateMany`).  The handler wraps the four writes
in no transaction, so after a crash or write failure mid-sequence this is
exactly the state an observer reads.  `k ≥ 4` gives the completed state;
guard failures leave the store untouched for every `k`. -/
def confirmBookingUpTo (db : DB) (userId : Nat) (vid : Nat) (now : Nat)
    (k : Nat) : DB :=
  match findVehicle db vid with
  | none => db
  | some vehicle =>
    if vehicle.status ≠ "available" then db
    else if vehicle.sellerId ≠ userId then db
    else
      match highestPendingBid db vid with
      | none => db
      | some hb =>
        let booking : Booking :=
          { id := db.nextBookingId, vehicleId := vid, buyerId := hb.userId,
            sellerId := vehicle.sellerId, bidId := hb.id,
            finalPrice := hb.amount, status := "confirmed", createdAt := now }
        let db1 := if 1 ≤ k then
            { db with bookings := db.bookings ++ [booking],
                      nextBookingId := db.nextBookingId + 1 } else db
        let db2 := if 2 ≤ k then
            { db1 with vehicles := db1.vehicles.map (markSold vehicle.id) }
          else db1
        let db3 := if 3 ≤ k then
            { db2 with bids := db2.bids.map (markAccepted hb.id) } else db2
        let db4 := if 4 ≤ k then
            { db3 with bids := db3.bids.map (markRejected vid hb.id) } else db3
        db4

/-- Response body of the forgot-password handlers: HTTP status, the
message, and the optional `resetUrl` and `token` fields. -/
structure ResetResponse where
  status : Nat
  message : String
  resetUrl : Option String
  token : Option String
deriving DecidableEq, Repr

/-- Handler POST /api/forgot-password, deployed (serverless) variant.
`crypto.randomBytes` and the sha256 hash are external
collaborators, passed in as the raw token and the hash function.  Both
branches answer with the same generic body; the raw token leaves the
handler only through the email (not modelled in the response). -/
def forgotPassword (hash : String → String) (rawToken : String)
    (db : DB) (email : Option String) (now : Nat) : ResetResponse × DB :=
  match email with
  | none => (⟨400, "Email is required", none, none⟩, db)
  | some e =>
    if e = "" then (⟨400, "Email is required", none, none⟩, db)
    else
      match db.users.find? (fun u => u.email = e) with
      | none =>
        (⟨200, "If an account exists with this email, a reset link has been sent.",
          none, none⟩, db)
      | some user =>
        let hashedToken := hash rawToken
        let db1 := { db with resetTokens :=
          (db.resetTokens.filter (fun t => ¬ t.userId = user.id)) ++
            [⟨user.id, hashedToken, now⟩] }
        (⟨200, "If an account exists with this email, a reset link has been sent.",
          none, none⟩, db1)

/-- Handler POST /api/forgot-password, local server variant: same store logic,
but when the account exists the JSON response additionally carries
`resetUrl` and the raw `token`. -/
def forgotPasswordLocal (hash : String → String) (rawToken : String)
    (db : DB) (email : Option String) (now : Nat) : ResetResponse × DB :=
  match email with
  | none => (⟨400, "Email is required", none, none⟩, db)
  | some e =>
    if e = "" then (⟨400, "Email is required", none, none⟩, db)
    else
      match db.users.find? (fun u => u.email = e) with
      | none =>
        (⟨200, "If an account exists with this email, a reset link has been sent.",
          none, none⟩, db)
      | some user =>
        let hashedToken := hash rawToken
        let db1 := { db with resetTokens :=
          (db.resetTokens.filter (fun t => ¬ t.userId = user.id)) ++
            [⟨user.id, hashedToken, now⟩] }
        let resetUrl :=
          "http://localhost:5500/frontend/pages/reset-password.html?token=" ++
            rawToken ++ "&email=" ++ e
        (⟨200, "If an account exists with this email, a reset link has been sent.",
          some resetUrl, some rawToken⟩, db1)

/-- Status of the bid document with the given id, if any. -/
def statusOfBid (db : DB) (bidId : Nat) : Option String :=
  (db.bids.find? (fun b => b.id = bidId)).map Bid.status

/-- The booking constructed on the success path of `confirmBooking`. -/
def winnerBooking (db : DB) (vid now : Nat) (v : Vehicle) (w : Bid) : Booking :=
  { id := db.nextBookingId, vehicleId := vid, buyerId := w.userId,
    sellerId := v.sellerId, bidId := w.id, finalPrice := w.amount,
    status := "confirmed", createdAt := now }

/-- The bid document constructed on the success path of `placeBid`. -/
def newBid (db : DB) (uid vid : Nat) (amount : RawVal) (now : Nat) : Bid :=
  { id := db.nextBidId, vehicleId := vid, userId := uid,
    amount := amount.parsed, status := "pending", createdAt := now }

/-- The state of Scenario B in the spec: one available vehicle (price 10000,
seller 1) with two pending bids of 12000 (user 2) and 15000 (user 3). -/
def dbScenarioB : DB :=
  ⟨[], [⟨1, 1, JSNum.num 10000, "available"⟩],
   [⟨10, 1, 2, JSNum.num 12000, "pending", 1⟩,
    ⟨11, 1, 3, JSNum.num 15000, "pending", 2⟩],
   [], [], 100, 500⟩

/-- One available vehicle (price 10000, seller 1) and no bids, as in the
Scenario A of the spec. -/
def dbScenarioA : DB :=
  ⟨[], [⟨1, 1, JSNum.num 10000, "available"⟩], [], [], [], 100, 500⟩

/-- An available vehicle with a negative listed price (reachable: the
creation route stores `parseFloat` of any truthy price string). -/
def dbNegPrice : DB :=
  ⟨[], [⟨1, 1, JSNum.num (-1), "available"⟩], [], [], [], 0, 0⟩

/-- A store holding one registered user. -/
def dbOneUser : DB :=
  ⟨[⟨1, "Alice", "alice@example.com"⟩], [], [], [], [], 0, 0⟩

/-- The empty store. -/
def dbEmpty : DB :=
  ⟨[], [], [], [], [], 0, 0⟩

/-- A store with one sold vehicle (the starting point of Scenario C). -/
def dbSold : DB :=
  ⟨[], [⟨1, 1, JSNum.num 10000, "sold"⟩], [], [], [], 0, 0⟩

/-- Combined per-document effect of the two bid writes of `confirmBooking`:
accept the winner, then reject the other pending bids of the vehicle. -/
def bidUpdate (vid wid : Nat) (b : Bid) : Bid :=
  markRejected vid wid (markAccepted wid b)

/-! ### Helper lemmas -/

theorem bsonLe_refl (x : JSNum) : JSNum.bsonLe x x = true := by
  cases x <;> simp [JSNum.bsonLe]

theorem mem_pendingBids {db : DB} {vid : Nat} {b : Bid} :
    b ∈ pendingBids db vid ↔
      b ∈ db.bids ∧ b.vehicleId = vid ∧ b.status = "pending" := by
  simp [pendingBids, List.mem_filter]

theorem sortBidsDesc_perm (l : List Bid) : List.Perm (sortBidsDesc l) l :=
  List.perm_insertionSort _ l

theorem sortBidsDesc_sorted (l : List Bid) :
    List.Sorted bidDescOrder (sortBidsDesc l) :=
  List.sorted_insertionSort _ l

theorem head_sortBidsDesc_max {l : List Bid} {w : Bid}
    (h : (sortBidsDesc l).head? = some w) :
    w ∈ l ∧ ∀ b ∈ l, JSNum.bsonLe b.amount w.amount = true := by
  obtain ⟨rest, hrest⟩ : ∃ rest, sortBidsDesc l = w :: rest := by
    cases hs : sortBidsDesc l with
    | nil => rw [hs] at h; cases h
    | cons a t =>
      rw [hs] at h
      simp only [List.head?_cons, Option.some.injEq] at h
      exact ⟨t, by rw [h]⟩
  have hperm := sortBidsDesc_perm l
  have hsorted := sortBidsDesc_sorted l
  rw [hrest] at hperm hsorted
  refine ⟨hperm.mem_iff.mp (List.mem_cons_self _ _), ?_⟩
  intro b hb
  rcases List.mem_cons.mp (hperm.symm.mem_iff.mp hb) with h1 | h2
  · rw [h1]; exact bsonLe_refl _
  · exact (List.sorted_cons.mp hsorted).1 b h2

theorem highestPendingBid_spec {db : DB} {vid : Nat} {w : Bid}
    (h : highestPendingBid db vid = some w) :
    w ∈ pendingBids db vid ∧
      ∀ b ∈ pendingBids db vid, JSNum.bsonLe b.amount w.amount = true :=
  head_sortBidsDesc_max h

theorem highestPendingBid_isSome {db : DB} {vid : Nat}
    (h : pendingBids db vid ≠ []) : ∃ w, highestPendingBid db vid = some w := by
  unfold highestPendingBid
  cases hs : sortBidsDesc (pendingBids db vid) with
  | nil =>
    have hp := sortBidsDesc_perm (pendingBids db vid)
    rw [hs] at hp
    exact absurd hp.symm.eq_nil h
  | cons a t => exact ⟨a, rfl⟩

theorem find?_bid_eq {l : List Bid} (hnd : (l.map Bid.id).Nodup) {b : Bid}
    (hb : b ∈ l) : l.find? (fun c => c.id = b.id) = some b := by
  induction l with
  | nil => cases hb
  | cons a t ih =>
    rw [List.map_cons, List.nodup_cons] at hnd
    rcases List.mem_cons.mp hb with rfl | hbt
    · simp
    · have hid : ¬ a.id = b.id := fun he => hnd.1 (he ▸ List.mem_map_of_mem Bid.id hbt)
      rw [List.find?_cons_of_neg _ (by simpa using hid)]
      exact ih hnd.2 hbt

theorem countP_bid_id_eq_one {l : List Bid} (hnd : (l.map Bid.id).Nodup) {w : Bid}
    (hw : w ∈ l) : l.countP (fun c => c.id = w.id) = 1 := by
  induction l with
  | nil => cases hw
  | cons a t ih =>
    rw [List.map_cons, List.nodup_cons] at hnd
    rcases List.mem_cons.mp hw with rfl | hwt
    · rw [List.countP_cons_of_pos _ _ (by simp)]
      have ht : t.countP (fun c => c.id = w.id) = 0 := by
        rw [List.countP_eq_zero]
        intro c hc hca
        exact hnd.1 ((of_decide_eq_true hca) ▸ List.mem_map_of_mem Bid.id hc)
      omega
    · have hne : ¬ a.id = w.id := fun he => hnd.1 (he ▸ List.mem_map_of_mem Bid.id hwt)
      rw [List.countP_cons_of_neg _ _ (by simpa using hne)]
      exact ih hnd.2 hwt

theorem pendingBids_ids_nodup {db : DB} {vid : Nat}
    (h : (db.bids.map Bid.id).Nodup) :
    ((pendingBids db vid).map Bid.id).Nodup :=
  ((List.filter_sublist _).map Bid.id).nodup h

theorem confirmBooking_success_eq {db : DB} {uid vid : Nat} (now : Nat)
    {v : Vehicle} {w : Bid}
    (hv : findVehicle db vid = some v) (hav : v.status = "available")
    (hsell : v.sellerId = uid) (hw : highestPendingBid db vid = some w) :
    confirmBooking db uid vid now =
      (BookingResult.created (winnerBooking db vid now v w),
       { db with
          bookings := db.bookings ++ [winnerBooking db vid now v w],
          nextBookingId := db.nextBookingId + 1,
          vehicles := db.vehicles.map (markSold v.id),
          bids := (db.bids.map (markAccepted w.id)).map (markRejected vid w.id) }) := by
  unfold confirmBooking
  rw [hv, hw]
  simp [hav, hsell, winnerBooking]

theorem confirmBooking_error_state {db : DB} {uid vid now : Nat} :
    ∀ s m, (confirmBooking db uid vid now).1 = BookingResult.error s m →
      (confirmBooking db uid vid now).2 = db ∧
        ((s = 404 ∧ m = "Vehicle not found") ∨
         (s = 400 ∧ m = "Vehicle already booked") ∨
         (s = 403 ∧ m = "Only seller can confirm booking") ∨
         (s = 400 ∧ m = "No bids available")) := by
  intro s m
  unfold confirmBooking
  cases hfv : findVehicle db vid with
  | none =>
    intro h
    simp only [BookingResult.error.injEq] at h
    exact ⟨by trivial, Or.inl ⟨h.1.symm, h.2.symm⟩⟩
  | some v =>
    dsimp only
    by_cases hs : v.status = "available"
    · simp only [hs, ne_eq, not_true_eq_false, if_false, ite_false]
      by_cases hsel : v.sellerId = uid
      · simp only [hsel, ne_eq, not_true_eq_false, ite_false]
        cases hw : highestPendingBid db vid with
        | none =>
          intro h
          simp only [BookingResult.error.injEq] at h
          exact ⟨by trivial, Or.inr (Or.inr (Or.inr ⟨h.1.symm, h.2.symm⟩))⟩
        | some hb =>
          intro h
          simp at h
      · simp only [ne_eq, hsel, not_false_eq_true, ite_true]
        intro h
        simp only [BookingResult.error.injEq] at h
        exact ⟨by trivial, Or.inr (Or.inr (Or.inl ⟨h.1.symm, h.2.symm⟩))⟩
    · simp only [ne_eq, hs, not_false_eq_true, ite_true]
      intro h
      simp only [BookingResult.error.injEq] at h
      exact ⟨by trivial, Or.inr (Or.inl ⟨h.1.symm, h.2.symm⟩)⟩

theorem placeBid_vehicles_bookings (db : DB) (uid : Nat) (vid? : Option Nat)
    (amount : RawVal) (now : Nat) :
    (placeBid db uid vid? amount now).2.vehicles = db.vehicles ∧
    (placeBid db uid vid? amount now).2.bookings = db.bookings := by
  unfold placeBid
  repeat' split
  all_goals exact ⟨rfl, rfl⟩

theorem placeBid_not_available {db : DB} {uid vid : Nat} {amount : RawVal}
    {now : Nat} {v : Vehicle}
    (hv : findVehicle db vid = some v) (hns : v.status ≠ "available") :
    (placeBid db uid (some vid) amount now).2 = db ∧
      (amount.truthy = true →
        (placeBid db uid (some vid) amount now).1 =
          BidResult.error 400 "Vehicle is no longer available") := by
  unfold placeBid
  dsimp only
  cases ht : amount.truthy with
  | false => simp
  | true => simp [hv, hns]

theorem placeBid_seller {db : DB} {uid vid : Nat} {amount : RawVal}
    {now : Nat} {v : Vehicle}
    (hv : findVehicle db vid = some v) (hsell : v.sellerId = uid) :
    (placeBid db uid (some vid) amount now).2 = db ∧
      (∃ m, (placeBid db uid (some vid) amount now).1 = BidResult.error 400 m) ∧
      (v.status = "available" → amount.truthy = true →
        (placeBid db uid (some vid) amount now).1 =
          BidResult.error 400 "You cannot bid on your own vehicle") := by
  unfold placeBid
  dsimp only
  cases ht : amount.truthy with
  | false => simp
  | true =>
    rw [hv]
    by_cases hs : v.status = "available"
    · simp [hs, hsell]
    · simp [hs]

theorem placeBid_created_iff {db : DB} {uid vid : Nat} {amount : RawVal}
    {now : Nat} {v : Vehicle}
    (hv : findVehicle db vid = some v) (hav : v.status = "available")
    (hns : v.sellerId ≠ uid) :
    (placeBid db uid (some vid) amount now).1.isCreated = true ↔
      (amount.truthy = true ∧ amount.parsed.jle v.price = false ∧
        ∀ hb, highestPendingBid db vid = some hb →
          amount.parsed.jle hb.amount = false) := by
  unfold placeBid
  dsimp only
  cases ht : amount.truthy with
  | false => simp [BidResult.isCreated]
  | true =>
    rw [hv]
    simp only [hav, ne_eq, not_true_eq_false, ite_false, if_false]
    rw [if_neg (fun h => hns h)]
    cases hp : amount.parsed.jle v.price with
    | true => simp [BidResult.isCreated]
    | false =>
      simp only [Bool.false_eq_true, ite_false, if_false]
      cases hhb : highestPendingBid db vid with
      | none => simp [BidResult.isCreated]
      | some hb =>
        cases hle : amount.parsed.jle hb.amount with
        | true => simp [BidResult.isCreated, hle]
        | false => simp [BidResult.isCreated, hle]

theorem placeBid_success_eq {db : DB} {uid vid : Nat} {amount : RawVal}
    {now : Nat} {v : Vehicle}
    (hv : findVehicle db vid = some v) (hav : v.status = "available")
    (hns : v.sellerId ≠ uid) (ht : amount.truthy = true)
    (hp : amount.parsed.jle v.price = false)
    (hhb : ∀ hb, highestPendingBid db vid = some hb →
      amount.parsed.jle hb.amount = false) :
    placeBid db uid (some vid) amount now =
      (BidResult.created (newBid db uid vid amount now),
       { db with bids := db.bids ++ [newBid db uid vid amount now],
                 nextBidId := db.nextBidId + 1 }) := by
  unfold placeBid
  cases hhbv : highestPendingBid db vid with
  | none => simp [ht, hv, hav, hns, hp, hhbv, newBid]
  | some hb => simp [ht, hv, hav, hns, hp, hhbv, hhb hb hhbv, newBid]

theorem markSold_id (i : Nat) (x : Vehicle) : (markSold i x).id = x.id := by
  unfold markSold; split <;> rfl

theorem bidUpdate_id (vid wid : Nat) (b : Bid) : (bidUpdate vid wid b).id = b.id := by
  unfold bidUpdate markRejected markAccepted
  split <;> split <;> rfl

theorem bidUpdate_winner {wid : Nat} (vid : Nat) {b : Bid} (h : b.id = wid) :
    bidUpdate vid wid b = { b with status := "accepted" } := by
  unfold bidUpdate markAccepted
  rw [if_pos h]
  unfold markRejected
  rw [if_neg (by simp [h])]

theorem bidUpdate_loser {vid wid : Nat} {b : Bid} (hne : b.id ≠ wid)
    (hvid : b.vehicleId = vid) (hst : b.status = "pending") :
    bidUpdate vid wid b = { b with status := "rejected" } := by
  unfold bidUpdate markAccepted
  rw [if_neg hne]
  unfold markRejected
  rw [if_pos ⟨hvid, hne, hst⟩]

theorem find?_map_of_pred {α β : Type} (f : α → β) (p : β → Bool) (q : α → Bool)
    (h : ∀ a, p (f a) = q a) (l : List α) :
    (l.map f).find? p = (l.find? q).map f := by
  have hc : (p ∘ f) = q := funext h
  rw [List.find?_map, hc]

theorem vehicle_eq_of_id {l : List Vehicle} (hnd : (l.map Vehicle.id).Nodup)
    {a b : Vehicle} (ha : a ∈ l) (hb : b ∈ l) (hid : a.id = b.id) : a = b := by
  induction l with
  | nil => cases ha
  | cons x t ih =>
    rw [List.map_cons, List.nodup_cons] at hnd
    rcases List.mem_cons.mp ha with rfl | hat
    · rcases List.mem_cons.mp hb with rfl | hbt
      · rfl
      · exact absurd (hid ▸ List.mem_map_of_mem Vehicle.id hbt) hnd.1
    · rcases List.mem_cons.mp hb with rfl | hbt
      · exact absurd (hid ▸ List.mem_map_of_mem Vehicle.id hat) hnd.1
      · exact ih hnd.2 hat hbt

theorem countP_bid_id_ne {l : List Bid} (hnd : (l.map Bid.id).Nodup) {w : Bid}
    (hw : w ∈ l) : l.countP (fun c => ¬ c.id = w.id) = l.length - 1 := by
  induction l with
  | nil => cases hw
  | cons a t ih =>
    rw [List.map_cons, List.nodup_cons] at hnd
    rcases List.mem_cons.mp hw with rfl | hwt
    · rw [List.countP_cons_of_neg _ _ (by simp)]
      have hall : t.countP (fun c => ¬ c.id = w.id) = t.length := by
        rw [List.countP_eq_length]
        intro c hc
        simp only [decide_eq_true_eq]
        intro he
        exact hnd.1 (he ▸ List.mem_map_of_mem Bid.id hc)
      rw [hall]
      simp
    · have hlen : 1 ≤ t.length := List.length_pos.mpr (List.ne_nil_of_mem hwt)
      have hne : ¬ a.id = w.id := fun he => hnd.1 (he ▸ List.mem_map_of_mem Bid.id hwt)
      rw [List.countP_cons_of_pos _ _ (by simpa using hne), ih hnd.2 hwt]
      simp
      omega

theorem confirmBooking_state_shape (db : DB) (uid vid now : Nat) :
    (confirmBooking db uid vid now).2 = db ∨
    ∃ v w, findVehicle db vid = some v ∧ v.status = "available" ∧
      v.sellerId = uid ∧ highestPendingBid db vid = some w ∧
      (confirmBooking db uid vid now).1 =
        BookingResult.created (winnerBooking db vid now v w) ∧
      (confirmBooking db uid vid now).2.vehicles =
        db.vehicles.map (markSold v.id) := by
  cases hfv : findVehicle db vid with
  | none =>
    left
    unfold confirmBooking
    rw [hfv]
  | some v =>
    by_cases hs : v.status = "available"
    · by_cases hsel : v.sellerId = uid
      · cases hw : highestPendingBid db vid with
        | none =>
          left
          unfold confirmBooking
          rw [hfv, hw]
          simp [hs, hsel]
        | some w =>
          right
          refine ⟨v, w, rfl, hs, hsel, rfl, ?_, ?_⟩
          · rw [confirmBooking_success_eq now hfv hs hsel hw]
          · rw [confirmBooking_success_eq now hfv hs hsel hw]
      · left
        unfold confirmBooking
        rw [hfv]
        simp [hs, hsel]
    · left
      unfold confirmBooking
      rw [hfv]
      simp [hs]

/-! ### Claims -/

/-- Counterexample to C3 as stated: on an available vehicle with listed
price −1 (reachable, since the creation route stores `parseFloat` of any
truthy price string), a non-seller bid of amount 0 is strictly greater
than the price and vacuously greater than every pending bid, yet the
handler rejects it: the JavaScript falsy-check on the raw body value
(`!amount`) fires on 0 before any floor comparison. -/
theorem placeBid_iff_counterexample :
    ¬ (((placeBid dbNegPrice 2 (some 1) (RawVal.ofNum 0) 0).1.isCreated = true) ↔
       (JSNum.jlt (JSNum.num (-1)) ((RawVal.ofNum 0).parsed) = true ∧
        ∀ b ∈ pendingBids dbNegPrice 1,
          JSNum.jlt b.amount ((RawVal.ofNum 0).parsed) = true)) := by
  decide

/-- Claim C3, amended: for an available vehicle with numeric price, a
non-seller caller, and numeric amounts throughout, `placeBid` succeeds iff
the amount is nonzero (a zero amount is rejected by the required-field
guard before the floor checks) and strictly greater than both the listed
price and every pending bid amount; amounts equal to the price or the
current highest pending bid are rejected with a 400 InvalidArgument
response. -/
theorem placeBid_success_iff (db : DB) (uid vid now : Nat) (q p : ℚ)
    (v : Vehicle)
    (hv : findVehicle db vid = some v) (hav : v.status = "available")
    (hns : v.sellerId ≠ uid) (hp : v.price = JSNum.num p)
    (hnum : ∀ b ∈ pendingBids db vid, b.amount ≠ JSNum.nan) :
    (placeBid db uid (some vid) (RawVal.ofNum q) now).1.isCreated = true ↔
      (q ≠ 0 ∧ p < q ∧
        ∀ b ∈ pendingBids db vid, JSNum.jlt b.amount (JSNum.num q) = true) := by
  rw [placeBid_created_iff hv hav hns]
  constructor
  · rintro ⟨ht, hple, hhb⟩
    refine ⟨by simpa [RawVal.ofNum] using ht, ?_, ?_⟩
    · rw [hp] at hple
      have : ¬ q ≤ p := by simpa [RawVal.ofNum, JSNum.jle] using hple
      exact lt_of_not_le this
    · intro b hb
      obtain ⟨mb, hmb⟩ : ∃ mb, b.amount = JSNum.num mb := by
        cases hba : b.amount with
        | nan => exact absurd hba (hnum b hb)
        | num x => exact ⟨x, rfl⟩
      obtain ⟨w, hwv⟩ := highestPendingBid_isSome (List.ne_nil_of_mem hb)
      obtain ⟨hwmem, hwmax⟩ := highestPendingBid_spec hwv
      obtain ⟨mw, hmw⟩ : ∃ mw, w.amount = JSNum.num mw := by
        cases hwa : w.amount with
        | nan => exact absurd hwa (hnum w hwmem)
        | num x => exact ⟨x, rfl⟩
      have h1 := hhb w hwv
      rw [hmw] at h1
      have hqw : mw < q := by
        have : ¬ q ≤ mw := by simpa [RawVal.ofNum, JSNum.jle] using h1
        exact lt_of_not_le this
      have h2 := hwmax b hb
      rw [hmb, hmw] at h2
      have hbw : mb ≤ mw := by simpa [JSNum.bsonLe] using h2
      rw [hmb]
      simp only [JSNum.jlt, decide_eq_true_eq]
      exact lt_of_le_of_lt hbw hqw
  · rintro ⟨hq, hpq, hall⟩
    refine ⟨by simpa [RawVal.ofNum] using hq, ?_, ?_⟩
    · rw [hp]
      simp only [RawVal.ofNum, JSNum.jle, decide_eq_false_iff_not]
      exact not_le_of_lt hpq
    · intro hb hhbv
      have hmem := (highestPendingBid_spec hhbv).1
      have hjlt := hall hb hmem
      obtain ⟨mh, hmh⟩ : ∃ mh, hb.amount = JSNum.num mh := by
        cases hha : hb.amount with
        | nan => exact absurd hha (hnum hb hmem)
        | num x => exact ⟨x, rfl⟩
      rw [hmh] at hjlt ⊢
      have hlt : mh < q := by simpa [JSNum.jlt] using hjlt
      simp only [RawVal.ofNum, JSNum.jle, decide_eq_false_iff_not]
      exact not_le_of_lt hlt

/-- Witness for C3 (amended): Scenario A — price 10000, no bids; the bid
of 10001 satisfies the right side of the equivalence, so it is created. -/
theorem placeBid_success_iff_witness :
    ((placeBid dbScenarioA 2 (some 1) (RawVal.ofNum 10001) 0).1.isCreated
        = true ↔
      ((10001 : ℚ) ≠ 0 ∧ (10000 : ℚ) < 10001 ∧
        ∀ b ∈ pendingBids dbScenarioA 1,
          JSNum.jlt b.amount (JSNum.num 10001) = true)) ∧
    (placeBid dbScenarioA 2 (some 1) (RawVal.ofNum 10001) 0).1.isCreated
      = true :=
  have h := placeBid_success_iff dbScenarioA 2 1 0 10001 10000
    ⟨1, 1, JSNum.num 10000, "available"⟩ rfl rfl (by decide) rfl (by decide)
  ⟨h, h.mpr ⟨by norm_num, by norm_num, by decide⟩⟩

/-- Claim C1: for an available vehicle, confirmed by its seller, with at
least one pending bid, `confirmBooking` picks a pending bid of maximal
amount as winner, creates the booking from the winner data, marks the
vehicle sold and the winner accepted, and rejects every other pending bid:
of the n bids pending at confirmation time, exactly 1 ends accepted,
n − 1 rejected, 0 pending. -/
theorem confirmBooking_success_spec (db : DB) (uid vid now : Nat) (v : Vehicle)
    (hids : (db.bids.map Bid.id).Nodup)
    (hv : findVehicle db vid = some v)
    (hav : v.status = "available")
    (hsell : v.sellerId = uid)
    (hpend : pendingBids db vid ≠ []) :
    ∃ w bk,
      w ∈ pendingBids db vid ∧
      (∀ b ∈ pendingBids db vid, JSNum.bsonLe b.amount w.amount = true) ∧
      (confirmBooking db uid vid now).1 = BookingResult.created bk ∧
      bk.buyerId = w.userId ∧ bk.bidId = w.id ∧ bk.finalPrice = w.amount ∧
      (confirmBooking db uid vid now).2.bookings = db.bookings ++ [bk] ∧
      findVehicle (confirmBooking db uid vid now).2 vid =
        some { v with status := "sold" } ∧
      statusOfBid (confirmBooking db uid vid now).2 w.id = some "accepted" ∧
      (∀ b ∈ pendingBids db vid, b.id ≠ w.id →
        statusOfBid (confirmBooking db uid vid now).2 b.id = some "rejected") ∧
      (pendingBids db vid).countP
        (fun b => statusOfBid (confirmBooking db uid vid now).2 b.id =
          some "accepted") = 1 ∧
      (pendingBids db vid).countP
        (fun b => statusOfBid (confirmBooking db uid vid now).2 b.id =
          some "rejected") = (pendingBids db vid).length - 1 ∧
      (pendingBids db vid).countP
        (fun b => statusOfBid (confirmBooking db uid vid now).2 b.id =
          some "pending") = 0 := by
  obtain ⟨w, hw⟩ := highestPendingBid_isSome hpend
  obtain ⟨hwmem, hwmax⟩ := highestPendingBid_spec hw
  have heq := confirmBooking_success_eq now hv hav hsell hw
  obtain ⟨hwdb, hwvid, hwpend⟩ := mem_pendingBids.mp hwmem
  have hv2 : db.vehicles.find? (fun x => x.id = vid) = some v := hv
  have hbids : (confirmBooking db uid vid now).2.bids =
      db.bids.map (bidUpdate vid w.id) := by
    rw [heq]
    dsimp only
    rw [List.map_map]
    rfl
  have hfind : ∀ i : Nat, statusOfBid (confirmBooking db uid vid now).2 i =
      ((db.bids.find? (fun b => b.id = i)).map (bidUpdate vid w.id)).map
        Bid.status := by
    intro i
    unfold statusOfBid
    rw [hbids, find?_map_of_pred (bidUpdate vid w.id) _
      (fun b => b.id = i) (fun a => by rw [bidUpdate_id]) db.bids]
  have hstat_w : statusOfBid (confirmBooking db uid vid now).2 w.id =
      some "accepted" := by
    rw [hfind w.id, find?_bid_eq hids hwdb]
    simp [bidUpdate_winner vid rfl]
  have hstat_l : ∀ b ∈ pendingBids db vid, b.id ≠ w.id →
      statusOfBid (confirmBooking db uid vid now).2 b.id = some "rejected" := by
    intro b hb hne
    obtain ⟨hbdb, hbvid, hbpend⟩ := mem_pendingBids.mp hb
    rw [hfind b.id, find?_bid_eq hids hbdb]
    simp [bidUpdate_loser hne hbvid hbpend]
  have hchar : ∀ b ∈ pendingBids db vid,
      statusOfBid (confirmBooking db uid vid now).2 b.id =
        some (if b.id = w.id then "accepted" else "rejected") := by
    intro b hb
    by_cases hbw : b.id = w.id
    · rw [if_pos hbw, hbw]
      exact hstat_w
    · rw [if_neg hbw]
      exact hstat_l b hb hbw
  refine ⟨w, winnerBooking db vid now v w, hwmem, hwmax, by rw [heq], rfl, rfl,
    rfl, by rw [heq], ?_, hstat_w, hstat_l, ?_, ?_, ?_⟩
  · unfold findVehicle
    rw [show (confirmBooking db uid vid now).2.vehicles =
        db.vehicles.map (markSold v.id) from by rw [heq]]
    rw [find?_map_of_pred (markSold v.id) _ (fun x => x.id = vid)
      (fun a => by rw [markSold_id]) db.vehicles]
    rw [hv2]
    simp [markSold]
  · have hcv : (pendingBids db vid).countP
        (fun b => statusOfBid (confirmBooking db uid vid now).2 b.id =
          some "accepted")
        = (pendingBids db vid).countP (fun c => c.id = w.id) :=
      List.countP_congr (fun b hb => by
        rw [hchar b hb]
        by_cases hbw : b.id = w.id <;> simp [hbw])
    rw [hcv]
    exact countP_bid_id_eq_one (pendingBids_ids_nodup hids) hwmem
  · have hcv : (pendingBids db vid).countP
        (fun b => statusOfBid (confirmBooking db uid vid now).2 b.id =
          some "rejected")
        = (pendingBids db vid).countP (fun c => ¬ c.id = w.id) :=
      List.countP_congr (fun b hb => by
        rw [hchar b hb]
        by_cases hbw : b.id = w.id <;> simp [hbw])
    rw [hcv]
    exact countP_bid_id_ne (pendingBids_ids_nodup hids) hwmem
  · rw [List.countP_eq_zero]
    intro b hb
    rw [hchar b hb]
    by_cases hbw : b.id = w.id <;> simp [hbw]

/-- Witness for C1: Scenario B — two pending bids of 12000 and 15000,
confirmed by the seller. -/
theorem confirmBooking_success_spec_witness :
    ∃ w bk,
      w ∈ pendingBids dbScenarioB 1 ∧
      (∀ b ∈ pendingBids dbScenarioB 1, JSNum.bsonLe b.amount w.amount = true) ∧
      (confirmBooking dbScenarioB 1 1 9).1 = BookingResult.created bk ∧
      bk.buyerId = w.userId ∧ bk.bidId = w.id ∧ bk.finalPrice = w.amount ∧
      (confirmBooking dbScenarioB 1 1 9).2.bookings =
        dbScenarioB.bookings ++ [bk] ∧
      findVehicle (confirmBooking dbScenarioB 1 1 9).2 1 =
        some { (⟨1, 1, JSNum.num 10000, "available"⟩ : Vehicle) with
          status := "sold" } ∧
      statusOfBid (confirmBooking dbScenarioB 1 1 9).2 w.id = some "accepted" ∧
      (∀ b ∈ pendingBids dbScenarioB 1, b.id ≠ w.id →
        statusOfBid (confirmBooking dbScenarioB 1 1 9).2 b.id =
          some "rejected") ∧
      (pendingBids dbScenarioB 1).countP
        (fun b => statusOfBid (confirmBooking dbScenarioB 1 1 9).2 b.id =
          some "accepted") = 1 ∧
      (pendingBids dbScenarioB 1).countP
        (fun b => statusOfBid (confirmBooking dbScenarioB 1 1 9).2 b.id =
          some "rejected") = (pendingBids dbScenarioB 1).length - 1 ∧
      (pendingBids dbScenarioB 1).countP
        (fun b => statusOfBid (confirmBooking dbScenarioB 1 1 9).2 b.id =
          some "pending") = 0 :=
  confirmBooking_success_spec dbScenarioB 1 1 9
    ⟨1, 1, JSNum.num 10000, "available"⟩ (by decide) rfl rfl rfl (by decide)

/-- Claim C7: `listBids` returns exactly the pending bids of the requested
vehicle (accepted and rejected bids excluded), sorted by amount in
descending order, and performs no state mutation. -/
theorem listBids_spec (db : DB) (vid : Nat) :
    (∀ b, b ∈ (listBids db vid).1 ↔
        b ∈ db.bids ∧ b.vehicleId = vid ∧ b.status = "pending") ∧
    List.Perm (listBids db vid).1 (pendingBids db vid) ∧
    List.Sorted bidDescOrder (listBids db vid).1 ∧
    (listBids db vid).2 = db := by
  refine ⟨?_, sortBidsDesc_perm _, sortBidsDesc_sorted _, rfl⟩
  intro b
  rw [show (listBids db vid).1 = sortBidsDesc (pendingBids db vid) from rfl,
    (sortBidsDesc_perm (pendingBids db vid)).mem_iff]
  exact mem_pendingBids

/-- Claim C6: whenever `confirmBooking` fails, the store is unchanged (no
booking created, vehicle status untouched, every bid status untouched), and
the only failure modes are the four listed ones: 404 vehicle not found,
400 vehicle already booked, 403 caller not the seller, 400 no bids
available. -/
theorem confirmBooking_failure_no_mutation (db : DB) (uid vid now s : Nat)
    (m : String)
    (h : (confirmBooking db uid vid now).1 = BookingResult.error s m) :
    (confirmBooking db uid vid now).2 = db ∧
      ((s = 404 ∧ m = "Vehicle not found") ∨
       (s = 400 ∧ m = "Vehicle already booked") ∨
       (s = 403 ∧ m = "Only seller can confirm booking") ∨
       (s = 400 ∧ m = "No bids available")) :=
  confirmBooking_error_state s m h

/-- Witness for C6: on the empty store, `confirmBooking` fails with 404 and
mutates nothing. -/
theorem confirmBooking_failure_no_mutation_witness :
    (confirmBooking dbEmpty 1 1 0).2 = dbEmpty ∧
      (((404 : Nat) = 404 ∧ "Vehicle not found" = "Vehicle not found") ∨
       ((404 : Nat) = 400 ∧ "Vehicle not found" = "Vehicle already booked") ∨
       ((404 : Nat) = 403 ∧ "Vehicle not found" = "Only seller can confirm booking") ∨
       ((404 : Nat) = 400 ∧ "Vehicle not found" = "No bids available")) :=
  confirmBooking_failure_no_mutation dbEmpty 1 1 0 404 "Vehicle not found" rfl

/-- Claim C10: on an available vehicle, for a non-seller caller, a truthy
request amount whose `parseFloat` is NaN passes both floor checks (JS
comparisons against NaN are false) and a bid whose amount is NaN is
inserted with status pending. -/
theorem placeBid_nan_inserted (db : DB) (uid vid now : Nat) (v : Vehicle)
    (amount : RawVal)
    (hv : findVehicle db vid = some v) (hav : v.status = "available")
    (hns : v.sellerId ≠ uid) (ht : amount.truthy = true)
    (hnan : amount.parsed = JSNum.nan) :
    placeBid db uid (some vid) amount now =
      (BidResult.created (newBid db uid vid amount now),
       { db with bids := db.bids ++ [newBid db uid vid amount now],
                 nextBidId := db.nextBidId + 1 }) ∧
      (newBid db uid vid amount now).amount = JSNum.nan ∧
      (newBid db uid vid amount now).status = "pending" := by
  refine ⟨placeBid_success_eq hv hav hns ht ?_ ?_, by simp [newBid, hnan], rfl⟩
  · rw [hnan]; cases v.price <;> rfl
  · intro hb _; rw [hnan]; cases hb.amount <;> rfl

/-- Witness for C10: a concrete NaN-amount bid on the Scenario A store is
inserted. -/
theorem placeBid_nan_inserted_witness :
    placeBid dbScenarioA 2 (some 1) ⟨true, JSNum.nan⟩ 7 =
      (BidResult.created (newBid dbScenarioA 2 1 ⟨true, JSNum.nan⟩ 7),
       { dbScenarioA with
          bids := dbScenarioA.bids ++ [newBid dbScenarioA 2 1 ⟨true, JSNum.nan⟩ 7],
          nextBidId := dbScenarioA.nextBidId + 1 }) ∧
      (newBid dbScenarioA 2 1 ⟨true, JSNum.nan⟩ 7).amount = JSNum.nan ∧
      (newBid dbScenarioA 2 1 ⟨true, JSNum.nan⟩ 7).status = "pending" :=
  placeBid_nan_inserted dbScenarioA 2 1 7 ⟨1, 1, JSNum.num 10000, "available"⟩
    ⟨true, JSNum.nan⟩ (by decide) rfl (by decide) rfl rfl

/-- Claim C4: `placeBid` never touches the vehicle collection; a
`confirmBooking` run changes each vehicle either not at all or — only on
success — from "available" to "sold" (so sold is terminal and
available→sold via successful confirmation is the only transition); and
once a vehicle is sold, `placeBid` on it fails with the 400 "no longer
available" error and mutates nothing. -/
theorem vehicle_status_state_machine :
    (∀ db uid vid? amount now,
       (placeBid db uid vid? amount now).2.vehicles = db.vehicles) ∧
    (∀ db uid vid now, (db.vehicles.map Vehicle.id).Nodup →
       ((confirmBooking db uid vid now).1.isError = true →
          (confirmBooking db uid vid now).2 = db) ∧
       (∀ i : Nat,
         (confirmBooking db uid vid now).2.vehicles[i]? = db.vehicles[i]? ∨
         (∃ bk u,
            (confirmBooking db uid vid now).1 = BookingResult.created bk ∧
            db.vehicles[i]? = some u ∧ u.status = "available" ∧
            (confirmBooking db uid vid now).2.vehicles[i]? =
              some { u with status := "sold" }))) ∧
    (∀ db uid vid amount now v, findVehicle db vid = some v →
       v.status = "sold" →
       (placeBid db uid (some vid) amount now).2 = db ∧
       (amount.truthy = true →
         (placeBid db uid (some vid) amount now).1 =
           BidResult.error 400 "Vehicle is no longer available")) := by
  refine ⟨?_, ?_, ?_⟩
  · intro db uid vid? amount now
    exact (placeBid_vehicles_bookings db uid vid? amount now).1
  · intro db uid vid now hnd
    constructor
    · intro herr
      rcases confirmBooking_state_shape db uid vid now with hsame | hshape
      · exact hsame
      · obtain ⟨v, w, hfv, hs, hsel, hw, hres, hveh⟩ := hshape
        rw [hres] at herr
        simp [BookingResult.isError] at herr
    · intro i
      rcases confirmBooking_state_shape db uid vid now with hsame | hshape
      · left
        rw [hsame]
      · obtain ⟨v, w, hfv, hs, hsel, hw, hres, hveh⟩ := hshape
        rw [hveh, List.getElem?_map]
        cases hui : db.vehicles[i]? with
        | none => left; rfl
        | some u =>
          by_cases huv : u.id = v.id
          · right
            have hv2 : db.vehicles.find? (fun x => x.id = vid) = some v := hfv
            have hvmem : v ∈ db.vehicles := List.mem_of_find?_eq_some hv2
            have humem : u ∈ db.vehicles := List.getElem?_mem hui
            have hue : u = v := vehicle_eq_of_id hnd humem hvmem huv
            refine ⟨winnerBooking db vid now v w, u, hres, rfl,
              by rw [hue]; exact hs, ?_⟩
            simp [markSold, huv]
          · left
            simp [markSold, huv]
  · intro db uid vid amount now v hv hsold
    exact placeBid_not_available hv (by rw [hsold]; decide)

/-- Witness for C4, at concrete stores: a non-seller bid on Scenario B
leaves the vehicles untouched; the seller confirming Scenario B
satisfies the per-index transition property; and on the sold-vehicle store
a further bid of 20000 fails with "no longer available" (Scenario C). -/
theorem vehicle_status_state_machine_witness :
    (placeBid dbScenarioB 2 (some 1) (RawVal.ofNum 20000) 3).2.vehicles =
        dbScenarioB.vehicles ∧
    (((confirmBooking dbScenarioB 1 1 9).1.isError = true →
        (confirmBooking dbScenarioB 1 1 9).2 = dbScenarioB) ∧
      (∀ i : Nat,
        (confirmBooking dbScenarioB 1 1 9).2.vehicles[i]? =
            dbScenarioB.vehicles[i]? ∨
        (∃ bk u,
          (confirmBooking dbScenarioB 1 1 9).1 = BookingResult.created bk ∧
          dbScenarioB.vehicles[i]? = some u ∧ u.status = "available" ∧
          (confirmBooking dbScenarioB 1 1 9).2.vehicles[i]? =
            some { u with status := "sold" }))) ∧
    ((placeBid dbSold 2 (some 1) (RawVal.ofNum 20000) 0).2 = dbSold ∧
      ((RawVal.ofNum 20000).truthy = true →
        (placeBid dbSold 2 (some 1) (RawVal.ofNum 20000) 0).1 =
          BidResult.error 400 "Vehicle is no longer available")) :=
  ⟨vehicle_status_state_machine.1 dbScenarioB 2 (some 1) (RawVal.ofNum 20000) 3,
   vehicle_status_state_machine.2.1 dbScenarioB 1 1 9 (by decide),
   vehicle_status_state_machine.2.2 dbSold 2 1 (RawVal.ofNum 20000) 0
     ⟨1, 1, JSNum.num 10000, "sold"⟩ rfl rfl⟩

/-- Counterexample to C5 as stated: the seller bidding on their own
available vehicle is rejected with HTTP status 400 (message "You cannot
bid on your own vehicle"), not 403. -/
theorem placeBid_seller_status_counterexample :
    (placeBid dbScenarioA 1 (some 1) (RawVal.ofNum 20000) 0).1 =
      BidResult.error 400 "You cannot bid on your own vehicle" ∧
    ¬ (∃ m, (placeBid dbScenarioA 1 (some 1) (RawVal.ofNum 20000) 0).1 =
        BidResult.error 403 m) := by
  constructor
  · decide
  · rintro ⟨m, hm⟩
    rw [show (placeBid dbScenarioA 1 (some 1) (RawVal.ofNum 20000) 0).1 =
        BidResult.error 400 "You cannot bid on your own vehicle" from by decide] at hm
    simp at hm

/-- Claim C5, amended: a bid by the own seller of the vehicle always fails with
no insertion, surfaced as HTTP 400 — with message "You cannot bid on your
own vehicle" when the vehicle is available and the amount is truthy — and
never as 403. -/
theorem placeBid_seller_always_fails (db : DB) (uid vid now : Nat)
    (amount : RawVal) (v : Vehicle)
    (hv : findVehicle db vid = some v) (hsell : v.sellerId = uid) :
    (placeBid db uid (some vid) amount now).2 = db ∧
      (∃ m, (placeBid db uid (some vid) amount now).1 = BidResult.error 400 m) ∧
      (v.status = "available" → amount.truthy = true →
        (placeBid db uid (some vid) amount now).1 =
          BidResult.error 400 "You cannot bid on your own vehicle") :=
  placeBid_seller hv hsell

/-- Witness for C5 (amended): the seller bidding on the Scenario A store. -/
theorem placeBid_seller_always_fails_witness :
    (placeBid dbScenarioA 1 (some 1) (RawVal.ofNum 20000) 0).2 = dbScenarioA ∧
      (∃ m, (placeBid dbScenarioA 1 (some 1) (RawVal.ofNum 20000) 0).1 =
        BidResult.error 400 m) ∧
      ((⟨1, 1, JSNum.num 10000, "available"⟩ : Vehicle).status = "available" →
        (RawVal.ofNum 20000).truthy = true →
        (placeBid dbScenarioA 1 (some 1) (RawVal.ofNum 20000) 0).1 =
          BidResult.error 400 "You cannot bid on your own vehicle") :=
  placeBid_seller_always_fails dbScenarioA 1 1 0 (RawVal.ofNum 20000)
    ⟨1, 1, JSNum.num 10000, "available"⟩ rfl rfl

/-- Claim C2 (refuted by the code): `confirmBooking` issues its four writes
as separate sequential operations with no transaction; the completed run
equals the write-prefix at 4, and after only the first write (crash between
`booking.save()` and `vehicle.save()`) an observer of the Scenario B store
sees the new Booking while the vehicle is still "available" and the winning
bid still "pending". -/
theorem confirmBooking_not_atomic :
    (∀ db uid vid now,
       (confirmBooking db uid vid now).2 = confirmBookingUpTo db uid vid now 4) ∧
    (confirmBookingUpTo dbScenarioB 1 1 9 1).bookings.length =
        dbScenarioB.bookings.length + 1 ∧
    findVehicle (confirmBookingUpTo dbScenarioB 1 1 9 1) 1 =
      some ⟨1, 1, JSNum.num 10000, "available"⟩ ∧
    statusOfBid (confirmBookingUpTo dbScenarioB 1 1 9 1) 11 = some "pending" := by
  refine ⟨?_, by decide, by decide, by decide⟩
  intro db uid vid now
  unfold confirmBooking confirmBookingUpTo
  cases hfv : findVehicle db vid with
  | none => rfl
  | some v =>
    dsimp only
    by_cases hs : v.status = "available"
    · by_cases hsel : v.sellerId = uid
      · cases hw : highestPendingBid db vid with
        | none => simp [hs, hsel]
        | some hb => simp [hs, hsel]
      · simp [hs, hsel]
    · simp [hs]

/-- Counterexample to C9 as stated: the local-server forgot-password
handler returns the raw reset token in the response body when the account
exists, and its response differs between existing and non-existing
accounts. -/
theorem forgotPassword_local_leaks_token :
    (forgotPasswordLocal (fun s => s) "tok" dbOneUser
        (some "alice@example.com") 0).1.token = some "tok" ∧
    (forgotPasswordLocal (fun s => s) "tok" dbOneUser
        (some "alice@example.com") 0).1 ≠
      (forgotPasswordLocal (fun s => s) "tok" dbEmpty
        (some "alice@example.com") 0).1 := by
  constructor
  · rfl
  · decide

/-- Claim C9, amended: the response body of the deployed forgot-password handler
never carries the token or the reset URL and is a function of the request
alone (identical across stores, so it reveals nothing about account
existence); the local-server variant instead includes the reset URL and the
raw token whenever the account exists. -/
theorem forgotPassword_generic_response :
    (∀ hash tok db e now,
       (forgotPassword hash tok db e now).1.token = none ∧
       (forgotPassword hash tok db e now).1.resetUrl = none) ∧
    (∀ hash tok db db2 e now now2,
       (forgotPassword hash tok db e now).1 =
         (forgotPassword hash tok db2 e now2).1) ∧
    (∀ hash tok db e now u,
       db.users.find? (fun x => x.email = e) = some u → e ≠ "" →
       (forgotPasswordLocal hash tok db (some e) now).1.token = some tok ∧
       (forgotPasswordLocal hash tok db (some e) now).1.resetUrl ≠ none) := by
  refine ⟨?_, ?_, ?_⟩
  · intro hash tok db e now
    unfold forgotPassword
    cases e with
    | none => exact ⟨rfl, rfl⟩
    | some s =>
      dsimp only
      by_cases hs : s = ""
      · simp [hs]
      · simp only [hs, ite_false, if_false]
        cases db.users.find? (fun u => u.email = s) <;> exact ⟨rfl, rfl⟩
  · intro hash tok db db2 e now now2
    unfold forgotPassword
    cases e with
    | none => rfl
    | some s =>
      dsimp only
      by_cases hs : s = ""
      · simp [hs]
      · simp only [hs, ite_false, if_false]
        cases db.users.find? (fun u => u.email = s) <;>
          cases db2.users.find? (fun u => u.email = s) <;> rfl
  · intro hash tok db e now u hu he
    unfold forgotPasswordLocal
    simp [he, hu]

/-- Witness for C9 (amended), at a concrete store, hash, and token. -/
theorem forgotPassword_generic_response_witness :
    ((forgotPassword (fun s => s) "tok" dbOneUser
        (some "alice@example.com") 0).1.token = none ∧
     (forgotPassword (fun s => s) "tok" dbOneUser
        (some "alice@example.com") 0).1.resetUrl = none) ∧
    (forgotPassword (fun s => s) "tok" dbOneUser
        (some "alice@example.com") 0).1 =
      (forgotPassword (fun s => s) "tok" dbEmpty
        (some "alice@example.com") 5).1 ∧
    ((forgotPasswordLocal (fun s => s) "tok" dbOneUser
        (some "alice@example.com") 0).1.token = some "tok" ∧
     (forgotPasswordLocal (fun s => s) "tok" dbOneUser
        (some "alice@example.com") 0).1.resetUrl ≠ none) :=
  ⟨forgotPassword_generic_response.1 (fun s => s) "tok" dbOneUser
      (some "alice@example.com") 0,
   forgotPassword_generic_response.2.1 (fun s => s) "tok" dbOneUser dbEmpty
      (some "alice@example.com") 0 5,
   forgotPassword_generic_response.2.2 (fun s => s) "tok" dbOneUser
      "alice@example.com" 0 ⟨1, "Alice", "alice@example.com"⟩ rfl (by decide)⟩

end AutoHub
